import Mathlib

/-!
Shallow embedding of the ImHex loader-script bridge
(`source/helpers/loader_script_handler.cpp`): the host API surface exposed
to Python loader scripts (`patch`, `add_bookmark`, `add_struct`,
`add_union`), the reflective struct/union translator
(`createStructureType`), and the interpreter lifecycle manager
(`LoaderScript::processFile`).
-/

namespace LoaderScript

/-- Errors surfaced through the embedded interpreter's error channel:
`PyErr_BadArgument()` and the `PyErr_SetString(PyExc_..., msg)` calls of the
source. -/
inductive PyErr where
  | badArgument : PyErr
  | typeError : String → PyErr
  | indexError : String → PyErr
deriving DecidableEq

/-- Events posted to the host event bus through `View::postEvent`. -/
inductive Event where
  | addBookmark : Nat → Nat → String → String → Event
  | appendPatternLanguageCode : String → Event
deriving DecidableEq

/-- Modelled from the spec: the external data-provider collaborator
(`LoaderScript::s_dataProvider`); its implementation is not part of this
fragment, the spec gives only its contract: a size query (`getActualSize`)
and a bounded write.  The provider's bytes live at offsets below `size`. -/
structure Provider where
  size : Nat
  data : Nat → Nat

/-- Modelled from the spec: the provider's bounded write
(`s_dataProvider->write(address, patches, count)`): the buffer's bytes land
at offsets `[address, address + count)`, clipped to the provider's size;
every other offset is untouched. -/
def Provider.write (p : Provider) (address : Nat) (bytes : List Nat) : Provider :=
  { p with
    data := fun i =>
      if address ≤ i ∧ i < address + bytes.length ∧ i < p.size then
        bytes.getD (i - address) 0
      else p.data i }

/-- Source function `LoaderScript::Py_addPatch`, modelled after
`PyArg_ParseTuple(args, "K|y#", &address, &patches, &count)` succeeded with
the optional buffer argument supplied: `address` is the parsed unsigned
64-bit value and `bytes` the supplied buffer, possibly empty (then
`count == 0` and the source's `patches == nullptr || count == 0` check
fires).  A call that omits the buffer argument is not modelled: the source
declares `u8 *patches; Py_ssize_t count;` without initializers and
`PyArg_ParseTuple` leaves the variables of absent optional arguments
untouched, so the null/empty check then reads indeterminate values —
undefined behavior with no guaranteed outcome.  Returns the raised error
(if any) together with the resulting provider state. -/
def Py_addPatch (p : Provider) (address : Nat) (bytes : List Nat) :
    Option PyErr × Provider :=
  if bytes.length = 0 then (some (PyErr.typeError "Invalid patch provided"), p)
  else if p.size ≤ address then
    (some (PyErr.indexError "address out of range"), p)
  else (none, p.write address bytes)

/-- Source function `LoaderScript::Py_addBookmark`, modelled after
`PyArg_ParseTuple(args, "K|n|s|s", ...)` succeeded: everything after the
address is optional, so a missing name or comment leaves the corresponding
pointer null (`none`).  The source then raises
`PyErr_SetString(PyExc_IndexError, "address out of range")` when either
text pointer is null, otherwise copies both strings into a `Bookmark` and
posts one `Events::AddBookmark` event.  Returns the raised error (if any)
together with the list of posted events. -/
def Py_addBookmark (address size : Nat) (name comment : Option String) :
    Option PyErr × List Event :=
  match name, comment with
  | some n, some c => (none, [Event.addBookmark address size n c])
  | _, _ => (some (PyErr.indexError "address out of range"), [])

/-- What `createStructureType` observes about a member's annotated type
reference: whether `PyObject_CallObject(memberType, nullptr)` succeeds, and
the instance's type name (`ob_type->tp_name`) and immediate base name
(`ob_type->tp_base->tp_name`, `none` when `tp_base` is null). -/
structure TypeRef where
  instantiable : Bool
  typeName : String
  baseName : Option String
deriving DecidableEq

/-- What `createStructureType` observes about the guest class passed to
`add_struct` or `add_union`: whether `PyObject_CallObject(type, nullptr)`
succeeds, the instance's type name and immediate base name, whether
`tp_dict` is non-null, and the ordered `__annotations__` items (`none` when
the mapping is absent).  A member pair's second component is `none` when
`PyTuple_GetItem(item, 1)` is null. -/
structure GuestClass where
  instantiable : Bool
  typeName : String
  baseName : Option String
  hasDict : Bool
  annots : Option (List (String × Option TypeRef))
deriving DecidableEq

/-- The TypeError both member checks of the loop body raise. -/
def memberErr : PyErr :=
  PyErr.typeError "member needs to have a annotation extending from ImHexType"

/-- A member passes the loop body's checks: its annotated type reference is
present, instantiable with no arguments, and the instance's immediate base
type is named `ImHexType`. -/
def validMember (m : String × Option TypeRef) : Bool :=
  match m.2 with
  | none => false
  | some t => t.instantiable && t.baseName == some "ImHexType"

/-- The member-emission loop of `createStructureType`:
`for (u16 i = 0; i < PyList_Size(list); i++) { ... }`.
`i` is the current value of the 16-bit counter, so the increment wraps
modulo 2^16.  `fuel` bounds the number of iterations modelled; `none` means
the loop has not exited within `fuel` iterations. -/
def memberLoop (list : List (String × Option TypeRef)) :
    Nat → Nat → String → Option (Except PyErr String)
  | 0, _, _ => none
  | fuel + 1, i, code =>
    if h : i < list.length then
      match (list.get ⟨i, h⟩).2 with
      | none => some (Except.error memberErr)
      | some t =>
        if t.instantiable && t.baseName == some "ImHexType" then
          memberLoop list fuel ((i + 1) % 65536)
            (code ++ "   " ++ t.typeName ++ " " ++ (list.get ⟨i, h⟩).1 ++ ";\n")
        else some (Except.error memberErr)
    else some (Except.ok code)

/-- Source function `createStructureType(keyword, args)`: take the class
out of the argument tuple, instantiate it, check that its immediate base is
`ImHexType`, read `tp_dict` and `__annotations__`, run the member loop, and
on success post exactly one `Events::AppendPatternLanguageCode` event.  The
result is `none` when the member loop does not exit within `fuel`
iterations, otherwise the raised error (if any) together with the list of
posted events. -/
def createStructureType (keyword : String) (cls : Option GuestClass) (fuel : Nat) :
    Option (Option PyErr × List Event) :=
  match cls with
  | none => some (some PyErr.badArgument, [])
  | some c =>
    if !c.instantiable then some (some PyErr.badArgument, [])
    else if c.baseName ≠ some "ImHexType" then
      some (some (PyErr.typeError "class type must extend from ImHexType"), [])
    else if !c.hasDict then some (some PyErr.badArgument, [])
    else
      match c.annots with
      | none => some (some PyErr.badArgument, [])
      | some list =>
        match memberLoop list fuel 0 (keyword ++ " " ++ c.typeName ++ " \x7b\n") with
        | none => none
        | some (Except.error e) => some (some e, [])
        | some (Except.ok code) =>
          some (none, [Event.appendPatternLanguageCode (code ++ "\x7d;\n")])

/-- Source function `LoaderScript::Py_addStruct`. -/
def Py_addStruct (cls : Option GuestClass) (fuel : Nat) :
    Option (Option PyErr × List Event) :=
  createStructureType "struct" cls fuel

/-- Source function `LoaderScript::Py_addUnion`. -/
def Py_addUnion (cls : Option GuestClass) (fuel : Nat) :
    Option (Option PyErr × List Event) :=
  createStructureType "union" cls fuel

/-- The translation exits, with an error or a posted declaration, after
some finite number of member-loop iterations. -/
def TranslationTerminates (keyword : String) (cls : Option GuestClass) : Prop :=
  ∃ fuel r, createStructureType keyword cls fuel = some r

/-- The declaration text the translator accumulates: the header line, one
line per member in declaration order with three-space indentation, then the
closing brace. -/
def declText (keyword cName : String) (members : List (String × String)) : String :=
  (members.foldl
    (fun code m => code ++ "   " ++ m.2 ++ " " ++ m.1 ++ ";\n")
    (keyword ++ " " ++ cName ++ " \x7b\n")) ++ "\x7d;\n"

/-- Interpreter-lifecycle calls made by `LoaderScript::processFile`,
in source order. -/
inductive Step where
  | setProgramName : Step
  | setPythonHome : Step
  | registerInittab : Step
  | bootRuntime : Step
  | prependLibPath : Step
  | openScript : Bool → Step
  | runScript : Bool → Bool → Step
  | closeScript : Step
  | finalizeRuntime : Step
deriving DecidableEq

/-- Source function `LoaderScript::processFile`, straight-line control
flow.  `homeExists` is the result of the bundled `lib/python3.8` directory
check, `openOk` whether `fopen` yields a non-null handle, and `guestOk`
whether the script (when it ran at all) completed without an unhandled
guest error — the source discards the return value of `PyRun_SimpleFile`.
No path inspects the result of `fopen`: the handle is handed as-is to
`PyRun_SimpleFile` and `fclose`, and the function always returns `true`.
The result is the ordered trace of lifecycle calls together with the
returned boolean. -/
def processFile (homeExists openOk guestOk : Bool) : List Step × Bool :=
  ([Step.setProgramName] ++
    (if homeExists then [Step.setPythonHome] else []) ++
    [Step.registerInittab, Step.bootRuntime, Step.prependLibPath,
     Step.openScript openOk, Step.runScript openOk (openOk && guestOk),
     Step.closeScript, Step.finalizeRuntime], true)

/-- Unfolding lemma: on a class that passes every upfront check, the
translator is exactly the member loop started at counter 0 on the header
line, with its outcome forwarded. -/
theorem createStructureType_run (keyword cName : String)
    (list : List (String × Option TypeRef)) (fuel : Nat) :
    createStructureType keyword
        (some ⟨true, cName, some "ImHexType", true, some list⟩) fuel
      = match memberLoop list fuel 0 (keyword ++ " " ++ cName ++ " \x7b\n") with
        | none => none
        | some (Except.error e) => some (some e, [])
        | some (Except.ok code) =>
          some (none, [Event.appendPatternLanguageCode (code ++ "\x7d;\n")]) := rfl

theorem validMember_eq_none {m : String × Option TypeRef} (hm : m.2 = none) :
    validMember m = false := by
  unfold validMember
  rw [hm]

theorem validMember_eq_some {m : String × Option TypeRef} {t : TypeRef}
    (hm : m.2 = some t) :
    validMember m = (t.instantiable && t.baseName == some "ImHexType") := by
  unfold validMember
  rw [hm]

/-- With enough fuel the member loop exits on every list shorter than
2^16, whatever the members are. -/
theorem memberLoop_exits (list : List (String × Option TypeRef)) :
    ∀ (fuel i : Nat) (code : String), list.length < 65536 →
      i ≤ list.length → list.length < i + fuel →
      ∃ r, memberLoop list fuel i code = some r := by
  intro fuel
  induction fuel with
  | zero => intro i code _ hi hf; omega
  | succ f ih =>
    intro i code hlen hi hf
    by_cases h : i < list.length
    · simp only [memberLoop]
      rw [dif_pos h]
      split
      · exact ⟨_, rfl⟩
      next t heq =>
        by_cases hc : (t.instantiable && t.baseName == some "ImHexType") = true
        · rw [if_pos hc, Nat.mod_eq_of_lt (by omega)]
          exact ih (i + 1) _ hlen (by omega) (by omega)
        · rw [if_neg hc]
          exact ⟨_, rfl⟩
    · simp only [memberLoop]
      rw [dif_neg h]
      exact ⟨_, rfl⟩

/-- On a list of length at least 2^16 whose members at counter-reachable
indices (below 2^16) all pass validation, the member loop never exits: the
16-bit counter wraps before reaching the list length. -/
theorem memberLoop_stuck (list : List (String × Option TypeRef))
    (hlen : 65536 ≤ list.length)
    (hv : ∀ i (h : i < list.length), i < 65536 →
      validMember (list.get ⟨i, h⟩) = true) :
    ∀ (fuel i : Nat) (code : String), i < 65536 →
      memberLoop list fuel i code = none := by
  intro fuel
  induction fuel with
  | zero => intro i code _; rfl
  | succ f ih =>
    intro i code hi
    have h : i < list.length := Nat.lt_of_lt_of_le hi hlen
    have hvm := hv i h hi
    simp only [memberLoop]
    rw [dif_pos h]
    split
    next heq =>
      rw [validMember_eq_none heq] at hvm
      exact absurd hvm (by simp)
    next t heq =>
      rw [validMember_eq_some heq] at hvm
      rw [if_pos hvm]
      exact ih _ _ (Nat.mod_lt _ (by norm_num))

/-- When some member at an index `k` reachable by the 16-bit counter fails
validation, the loop exits with the member TypeError (at `k` or at an
earlier failing member, which raises the same error). -/
theorem memberLoop_hits_invalid (list : List (String × Option TypeRef))
    (k : Nat) (hk : k < list.length) (hk16 : k < 65536)
    (hbad : validMember (list.get ⟨k, hk⟩) = false) :
    ∀ (fuel i : Nat) (code : String), i ≤ k → k < i + fuel →
      memberLoop list fuel i code = some (Except.error memberErr) := by
  intro fuel
  induction fuel with
  | zero => intro i code hi hf; omega
  | succ f ih =>
    intro i code hi hf
    have h : i < list.length := Nat.lt_of_le_of_lt hi hk
    simp only [memberLoop]
    rw [dif_pos h]
    split
    · rfl
    next t heq =>
      by_cases hc : (t.instantiable && t.baseName == some "ImHexType") = true
      · rw [if_pos hc]
        rcases Nat.lt_or_ge i k with hik | hik
        · rw [Nat.mod_eq_of_lt (by omega)]
          exact ih (i + 1) _ (by omega) (by omega)
        · have hik2 : i = k := Nat.le_antisymm hi hik
          subst hik2
          have hbad2 : validMember (list.get ⟨i, h⟩) = false := hbad
          rw [validMember_eq_some heq] at hbad2
          rw [hbad2] at hc
          exact absurd hc (by simp)
      · rw [if_neg hc]

/-- A member that raises the member TypeError at its list head: its
annotated type reference is null, so the loop errors at counter 0. -/
theorem memberLoop_none_head (name : String)
    (rest : List (String × Option TypeRef)) (fuel : Nat) (code : String) :
    memberLoop ((name, none) :: rest) (fuel + 1) 0 code
      = some (Except.error memberErr) := by
  have h0 : 0 < ((name, none) :: rest).length := Nat.succ_pos rest.length
  simp only [memberLoop]
  rw [dif_pos h0]
  rfl

/-- A member whose checks all pass. -/
def goodMem : String × Option TypeRef := ("f", some ⟨true, "T", some "ImHexType"⟩)

/-- A list of 65536 passing members followed by one member with a null
annotated type: the bad member sits at index 65536, which the 16-bit
counter never reaches. -/
def tailBadList : List (String × Option TypeRef) :=
  List.replicate 65536 goodMem ++ [("x", none)]

/-- A guest class whose annotation list is `tailBadList`. -/
def tailBadClass : GuestClass := ⟨true, "B", some "ImHexType", true, some tailBadList⟩

/-- A list of 65536 entries whose very first member already has a null
annotated type. -/
def badHeadList : List (String × Option TypeRef) :=
  ("x", none) :: List.replicate 65535 ("x", none)

/-- A guest class whose annotation list is `badHeadList`. -/
def badHeadClass : GuestClass := ⟨true, "B", some "ImHexType", true, some badHeadList⟩

/-- A list of 65536 passing members. -/
def allGoodHugeList : List (String × Option TypeRef) := List.replicate 65536 goodMem

/-- A guest class whose annotation list is `allGoodHugeList`. -/
def allGoodHugeClass : GuestClass :=
  ⟨true, "B", some "ImHexType", true, some allGoodHugeList⟩

/-- A one-member guest class with a passing member. -/
def smallClass : GuestClass := ⟨true, "S", some "ImHexType", true, some [goodMem]⟩

/-- A two-member list whose second member has a null annotated type. -/
def twoMemberBadList : List (String × Option TypeRef) :=
  [("a", some ⟨true, "T", some "ImHexType"⟩), ("b", none)]

/-- C1: on every termination path of `processFile` — normal script
completion, unhandled guest error, failure to open the script file — the
runtime is finalized before the operation returns: the last lifecycle call
of the trace is always the runtime teardown. -/
theorem processFile_finalizes_on_all_paths (homeExists openOk guestOk : Bool) :
    (processFile homeExists openOk guestOk).1.getLast? = some Step.finalizeRuntime ∧
    Step.finalizeRuntime ∈ (processFile homeExists openOk guestOk).1 := by
  cases homeExists <;> exact ⟨rfl, by simp [processFile]⟩

/-- C2 (code evaluated at the failing input): when `fopen` fails,
`processFile` signals nothing: it still hands the (null) handle to
`PyRun_SimpleFile` — so no script content runs — and returns `true`,
reporting success instead of a resource-acquisition failure. -/
theorem processFile_open_failure_reports_success :
    processFile false false false
      = ([Step.setProgramName, Step.registerInittab, Step.bootRuntime,
          Step.prependLibPath, Step.openScript false, Step.runScript false false,
          Step.closeScript, Step.finalizeRuntime], true) := rfl

/-- C3: for every address below the provider's size and every non-empty
buffer, `patch` raises no error, performs exactly one bounded write through
the provider, and the provider's bytes in range afterwards equal the
buffer. -/
theorem patch_in_range_writes (p : Provider) (a : Nat) (b : List Nat)
    (ha : a < p.size) (hb : b ≠ []) :
    Py_addPatch p a b = (none, p.write a b) ∧
    ∀ i, i < b.length → a + i < p.size →
      (p.write a b).data (a + i) = b.getD i 0 := by
  have hlen : ¬ b.length = 0 := fun h0 => hb (List.length_eq_zero.mp h0)
  have hrange : ¬ p.size ≤ a := not_le.mpr ha
  constructor
  · simp only [Py_addPatch]
    rw [if_neg hlen, if_neg hrange]
  · intro i hi hsize
    simp only [Provider.write]
    rw [if_pos ⟨Nat.le_add_right a i, by omega, hsize⟩]
    rw [Nat.add_sub_cancel_left]

theorem patch_in_range_writes_witness :
    (1 : Nat) < (Provider.mk 4 fun _ => 0).size ∧
    Py_addPatch (Provider.mk 4 fun _ => 0) 1 [7, 8]
      = (none, (Provider.mk 4 fun _ => 0).write 1 [7, 8]) ∧
    ((Provider.mk 4 fun _ => 0).write 1 [7, 8]).data 1 = 7 ∧
    ((Provider.mk 4 fun _ => 0).write 1 [7, 8]).data 2 = 8 := by
  have h := patch_in_range_writes (Provider.mk 4 fun _ => 0) 1 [7, 8]
    (by decide) (by decide)
  exact ⟨by decide, h.1, h.2 0 (by decide) (by decide), h.2 1 (by decide) (by decide)⟩

/-- C4 counterexample: at an out-of-range address with a supplied empty
buffer the source raises the buffer TypeError, not the range IndexError —
the claim as stated over every buffer fails on the empty buffer. -/
theorem patch_oob_empty_buffer_raises_argument_error :
    (Provider.mk 1 fun _ => 0).size ≤ 5 ∧
    (Py_addPatch (Provider.mk 1 fun _ => 0) 5 []).1
      = some (PyErr.typeError "Invalid patch provided") ∧
    (Py_addPatch (Provider.mk 1 fun _ => 0) 5 []).1
      ≠ some (PyErr.indexError "address out of range") :=
  ⟨by decide, rfl, by decide⟩

/-- C4 amended: for every address at or beyond the provider's size and
every non-empty buffer, `patch` raises the range IndexError and leaves the
provider unmodified. -/
theorem patch_out_of_range_raises_range_error (p : Provider) (a : Nat)
    (b : List Nat) (ha : p.size ≤ a) (hb : b ≠ []) :
    Py_addPatch p a b
      = (some (PyErr.indexError "address out of range"), p) := by
  have hlen : ¬ b.length = 0 := fun h0 => hb (List.length_eq_zero.mp h0)
  simp only [Py_addPatch]
  rw [if_neg hlen, if_pos ha]

theorem patch_out_of_range_raises_range_error_witness :
    (Provider.mk 1 fun _ => 0).size ≤ 5 ∧ ([7] : List Nat) ≠ [] ∧
    Py_addPatch (Provider.mk 1 fun _ => 0) 5 [7]
      = (some (PyErr.indexError "address out of range"), Provider.mk 1 fun _ => 0) :=
  ⟨by decide, by decide,
    patch_out_of_range_raises_range_error (Provider.mk 1 fun _ => 0) 5 [7]
      (by decide) (by decide)⟩

/-- C7 (code evaluated at the failing input): a bookmark call with a
missing name or comment raises the IndexError reading "address out of
range" — the patch range error, not an argument-parse failure — and posts
no event. -/
theorem addBookmark_missing_text_raises_index_error :
    Py_addBookmark 16 4 none (some "note")
      = (some (PyErr.indexError "address out of range"), []) ∧
    Py_addBookmark 16 4 (some "name") none
      = (some (PyErr.indexError "address out of range"), []) ∧
    Py_addBookmark 16 4 none none
      = (some (PyErr.indexError "address out of range"), []) :=
  ⟨rfl, rfl, rfl⟩

/-- C8: a bookmark call supplying address, size, name and comment raises
no error and posts exactly one add-bookmark event carrying exactly those
fields; no other effect is modelled because the source persists nothing
itself. -/
theorem addBookmark_wellformed_posts_one_event (address size : Nat)
    (name comment : String) :
    Py_addBookmark address size (some name) (some comment)
      = (none, [Event.addBookmark address size name comment]) := rfl

/-- C5: for a guest class extending the marker base with two annotated
members whose types also extend it, `add_struct` raises no error and posts
exactly one append-pattern-language-code event whose text is the struct
header, the two member lines in declaration order with three-space
indentation, and the closing brace; the ground conjunct spells the exact
text for the claim's names. -/
theorem addStruct_two_members_posts_declaration (fuel : Nat)
    (cName f1 t1 f2 t2 : String) :
    Py_addStruct (some ⟨true, cName, some "ImHexType", true,
        some [(f1, some ⟨true, t1, some "ImHexType"⟩),
              (f2, some ⟨true, t2, some "ImHexType"⟩)]⟩) (fuel + 3)
      = some (none, [Event.appendPatternLanguageCode
          (declText "struct" cName [(f1, t1), (f2, t2)])]) ∧
    declText "struct" "C" [("f1", "T1"), ("f2", "T2")]
      = "struct C \x7b\n   T1 f1;\n   T2 f2;\n\x7d;\n" :=
  ⟨rfl, by decide⟩

/-- C6 counterexample: a guest class with 65536 valid members followed by
one invalid member (at index 65536, beyond the 16-bit counter's range)
never terminates its translation, so no TypeError is ever raised — the
claim fails for classes whose first invalid member lies at an index the
wrapping counter cannot reach. -/
theorem addStruct_huge_class_invalid_member_never_raises :
    tailBadList[65536]? = some ("x", (none : Option TypeRef)) ∧
    validMember ("x", (none : Option TypeRef)) = false ∧
    ¬ TranslationTerminates "struct" (some tailBadClass) := by
  have hlen65 : tailBadList.length = 65537 := by
    unfold tailBadList
    rw [List.length_append, List.length_replicate]
    rfl
  have hlen : 65536 ≤ tailBadList.length := by
    rw [hlen65]
    norm_num
  have hv : ∀ i (h : i < tailBadList.length), i < 65536 →
      validMember (tailBadList.get ⟨i, h⟩) = true := by
    intro i h hi
    have h1 : i < (List.replicate 65536 goodMem).length := by
      rw [List.length_replicate]; exact hi
    have hq : tailBadList[i]? = some goodMem := by
      show (List.replicate 65536 goodMem ++ [("x", none)])[i]? = some goodMem
      rw [List.getElem?_append_left h1, List.getElem?_eq_getElem h1,
        List.getElem_replicate]
    have h2 : tailBadList[i]? = some (tailBadList.get ⟨i, h⟩) := by
      rw [List.get_eq_getElem]
      exact List.getElem?_eq_getElem h
    have hget : tailBadList.get ⟨i, h⟩ = goodMem := Option.some.inj (h2.symm.trans hq)
    rw [hget]
    decide
  refine ⟨?_, by decide, ?_⟩
  · show (List.replicate 65536 goodMem ++ [("x", none)])[65536]? = _
    rw [List.getElem?_append_right (List.length_replicate 65536 goodMem).le]
    rw [List.length_replicate]
    rfl
  · rintro ⟨fuel, r, hr⟩
    unfold tailBadClass at hr
    rw [createStructureType_run] at hr
    rw [memberLoop_stuck tailBadList hlen hv fuel 0 _ (by norm_num)] at hr
    exact Option.noConfusion hr

/-- C6 amended: for every guest class whose invalid member sits at an
index below 65536 (in particular every class with fewer than 65536
members), both `add_struct` and `add_union` raise the member TypeError,
the translation is aborted, and no declaration event — not even a partial
one covering the earlier valid members — is posted. -/
theorem addStruct_invalid_member_below_wrap_aborts (cName : String)
    (list : List (String × Option TypeRef)) (k : Nat)
    (hk : k < list.length) (hk16 : k < 65536)
    (hbad : validMember (list.get ⟨k, hk⟩) = false)
    (fuel : Nat) (hfuel : k < fuel) :
    Py_addStruct (some ⟨true, cName, some "ImHexType", true, some list⟩) fuel
      = some (some memberErr, []) ∧
    Py_addUnion (some ⟨true, cName, some "ImHexType", true, some list⟩) fuel
      = some (some memberErr, []) := by
  constructor
  · unfold Py_addStruct
    rw [createStructureType_run,
      memberLoop_hits_invalid list k hk hk16 hbad fuel 0 _ (Nat.zero_le k) (by omega)]
  · unfold Py_addUnion
    rw [createStructureType_run,
      memberLoop_hits_invalid list k hk hk16 hbad fuel 0 _ (Nat.zero_le k) (by omega)]

theorem addStruct_invalid_member_below_wrap_aborts_witness :
    Py_addStruct (some ⟨true, "C", some "ImHexType", true, some twoMemberBadList⟩) 2
      = some (some memberErr, []) ∧
    Py_addUnion (some ⟨true, "C", some "ImHexType", true, some twoMemberBadList⟩) 2
      = some (some memberErr, []) :=
  addStruct_invalid_member_below_wrap_aborts "C" twoMemberBadList 1
    (by decide) (by decide) (by decide) 2 (by decide)

/-- C9 counterexample: a guest class with 65536 annotated members whose
first member is already invalid terminates its translation in one loop
iteration — the claim that the loop never terminates for any class with
65536 or more members is false. -/
theorem memberLoop_wrap_claim_counterexample :
    65536 ≤ badHeadList.length ∧
    TranslationTerminates "struct" (some badHeadClass) := by
  have h1 : badHeadList.length = 65536 := by
    unfold badHeadList
    rw [List.length_cons, List.length_replicate]
  constructor
  · exact h1.ge
  · refine ⟨1, (some memberErr, []), ?_⟩
    unfold badHeadClass
    rw [createStructureType_run]
    have hloop : memberLoop badHeadList 1 0 ("struct" ++ " " ++ "B" ++ " \x7b\n")
        = some (Except.error memberErr) :=
      memberLoop_none_head "x" (List.replicate 65535 ("x", none)) 0 _
    rw [hloop]

/-- C9 amended: the member loop's 16-bit counter makes every translation of
a class with fewer than 65536 annotated members terminate, while on a
class with 65536 or more members — all members at counter-reachable
indices passing validation — the counter wraps before reaching the list
length and the loop never terminates (an invalid member at a reachable
index instead stops the loop with a TypeError). -/
theorem createStructureType_u16_counter (keyword : String) (c : GuestClass)
    (list : List (String × Option TypeRef)) (hann : c.annots = some list) :
    (list.length < 65536 → TranslationTerminates keyword (some c)) ∧
    (65536 ≤ list.length →
      (∀ i (h : i < list.length), i < 65536 →
        validMember (list.get ⟨i, h⟩) = true) →
      c.instantiable = true → c.baseName = some "ImHexType" → c.hasDict = true →
      ¬ TranslationTerminates keyword (some c)) := by
  obtain ⟨ci, cn, cb, cd, ca⟩ := c
  have hca : ca = some list := hann
  subst hca
  constructor
  · intro hlen
    cases ci with
    | false => exact ⟨0, (some PyErr.badArgument, []), rfl⟩
    | true =>
      by_cases hcb : cb = some "ImHexType"
      · subst hcb
        cases cd with
        | false => exact ⟨0, (some PyErr.badArgument, []), rfl⟩
        | true =>
          obtain ⟨r, hr⟩ := memberLoop_exits list (list.length + 1) 0
            (keyword ++ " " ++ cn ++ " \x7b\n") hlen (Nat.zero_le _) (by omega)
          refine ⟨list.length + 1, ?_⟩
          rw [createStructureType_run, hr]
          cases r with
          | error e => exact ⟨_, rfl⟩
          | ok code => exact ⟨_, rfl⟩
      · refine ⟨0,
          (some (PyErr.typeError "class type must extend from ImHexType"), []), ?_⟩
        simp [createStructureType, hcb]
  · intro hlen hv hinst hbase hdict
    have hci : ci = true := hinst
    have hcb : cb = some "ImHexType" := hbase
    have hcd : cd = true := hdict
    subst hci; subst hcb; subst hcd
    rintro ⟨fuel, r, hr⟩
    rw [createStructureType_run] at hr
    rw [memberLoop_stuck list hlen hv fuel 0 _ (by norm_num)] at hr
    exact Option.noConfusion hr

theorem createStructureType_u16_counter_witness :
    TranslationTerminates "struct" (some smallClass) ∧
    ¬ TranslationTerminates "struct" (some allGoodHugeClass) := by
  constructor
  · exact (createStructureType_u16_counter "struct" smallClass [goodMem] rfl).1
      (by decide)
  · refine (createStructureType_u16_counter "struct" allGoodHugeClass
      allGoodHugeList rfl).2 (List.length_replicate 65536 goodMem).ge ?_ rfl rfl rfl
    intro i h hi
    have h1 : i < (List.replicate 65536 goodMem).length := h
    have hq : allGoodHugeList[i]? = some goodMem := by
      show (List.replicate 65536 goodMem)[i]? = some goodMem
      rw [List.getElem?_eq_getElem h1, List.getElem_replicate]
    have h2 : allGoodHugeList[i]? = some (allGoodHugeList.get ⟨i, h⟩) := by
      rw [List.get_eq_getElem]
      exact List.getElem?_eq_getElem h
    have hget : allGoodHugeList.get ⟨i, h⟩ = goodMem :=
      Option.some.inj (h2.symm.trans hq)
    rw [hget]
    decide

end LoaderScript
